import Mathlib

/-!
Shallow embedding of the NSE backend (src/app.py): the upstream fetchers
(fetch_nse_stock_data, fetch_nse_indices, fetch_top_gainers_losers), the
shared cache dict, and the Flask route handlers (get_stocks, get_stock,
get_indices, get_movers, get_all_data, clear_cache), followed by theorems
settling the specification claims.

Modelling conventions:
- JSON numbers carried through unchanged by the code are modelled as Int
  (no arithmetic is ever performed on them).
- Each upstream field the code reads with dict.get(key, default) is an
  Option field; getD models the default.
- An upstream HTTP interaction is `HttpResult body`: `netErr` models the
  request itself raising (network error / timeout), `ok status body` a
  returned response; `body = none` models response.json() raising
  (malformed JSON).
- time.time() values are modelled as Int; datetime.now() values as an
  opaque iso string plus an hour, supplied through the Upstream record.
- Handlers are state transformers on the module-level cache dict, and
  additionally return the list of outward effects (warm-up, upstream data
  calls) they perform, so that claims about "no upstream calls" are
  statable.
-/

namespace NSE

/-- Result of one upstream HTTP call: `netErr` models the request raising
(network error, timeout); `ok status body` a response, where `body = none`
models `.json()` raising on a malformed payload. -/
inductive HttpResult (α : Type) where
  | netErr : HttpResult α
  | ok (status : Nat) (body : Option α) : HttpResult α
deriving DecidableEq

/-! ### JSON shapes read by fetch_nse_stock_data -/

/-- `priceInfo.intraDayHighLow` sub-dict: keys `max`, `min`. -/
structure IntraDayHighLow where
  max : Option Int
  min : Option Int
deriving DecidableEq

/-- `data['priceInfo']` sub-dict, with exactly the keys the code reads. -/
structure PriceInfo where
  lastPrice : Option Int
  change : Option Int
  pChange : Option Int
  previousClose : Option Int
  openPrice : Option Int          -- JSON key 'open' ('open' is a Lean keyword)
  intraDayHighLow : Option IntraDayHighLow
  totalTradedVolume : Option Int
  totalTradedValue : Option Int
  lastUpdateTime : Option String
deriving DecidableEq

/-- `data['metadata']` sub-dict (the code binds it as `price_band`). -/
structure Metadata where
  companyName : Option String
deriving DecidableEq

/-- Body of the quote-equity endpoint, with the two sub-dicts the code reads. -/
structure QuoteJson where
  priceInfo : Option PriceInfo
  metadata : Option Metadata
deriving DecidableEq

/-- The empty `priceInfo` dict ({} default of `data.get('priceInfo', {})`). -/
def PriceInfo.empty : PriceInfo :=
  { lastPrice := none, change := none, pChange := none, previousClose := none,
    openPrice := none, intraDayHighLow := none, totalTradedVolume := none,
    totalTradedValue := none, lastUpdateTime := none }

/-- The empty `metadata` dict. -/
def Metadata.empty : Metadata := { companyName := none }

/-- The empty `intraDayHighLow` dict. -/
def IntraDayHighLow.empty : IntraDayHighLow := { max := none, min := none }

/-- The record built by fetch_nse_stock_data (field 'open' renamed openPrice). -/
structure StockQuote where
  symbol : String
  name : String
  price : Int
  change : Int
  pChange : Int
  previousClose : Int
  openPrice : Int
  dayHigh : Int
  dayLow : Int
  volume : Int
  value : Int
  lastUpdateTime : String
  timestamp : String
deriving DecidableEq

/-- src/app.py lines 54-88: fetch_nse_stock_data. `nowIso` models
`datetime.now().isoformat()`. Returns none on network error, non-200
status or malformed JSON (all logged-and-swallowed in the source). -/
def fetch_nse_stock_data (symbol : String) (nowIso : String)
    (resp : HttpResult QuoteJson) : Option StockQuote :=
  match resp with
  | .netErr => none
  | .ok status body =>
    if status = 200 then
      match body with
      | none => none                -- response.json() raised, caught by except
      | some data =>
        let price_info := data.priceInfo.getD PriceInfo.empty
        let price_band := data.metadata.getD Metadata.empty
        some
          { symbol := symbol
            name := price_band.companyName.getD symbol
            price := price_info.lastPrice.getD 0
            change := price_info.change.getD 0
            pChange := price_info.pChange.getD 0
            previousClose := price_info.previousClose.getD 0
            openPrice := price_info.openPrice.getD 0
            dayHigh := (price_info.intraDayHighLow.getD IntraDayHighLow.empty).max.getD 0
            dayLow := (price_info.intraDayHighLow.getD IntraDayHighLow.empty).min.getD 0
            volume := price_info.totalTradedVolume.getD 0
            value := price_info.totalTradedValue.getD 0
            lastUpdateTime := price_info.lastUpdateTime.getD ""
            timestamp := nowIso }
    else none

/-! ### JSON shapes read by fetch_nse_indices -/

/-- One item of the allIndices `data` list. JSON key 'open' renamed openV. -/
structure IndexItemJson where
  index : Option String
  last : Option Int
  variation : Option Int
  percentChange : Option Int
  openV : Option Int
  high : Option Int
  low : Option Int
deriving DecidableEq

/-- Body of the allIndices endpoint. -/
structure AllIndicesJson where
  data : Option (List IndexItemJson)
deriving DecidableEq

/-- The per-index record built by fetch_nse_indices ('open' renamed openV). -/
structure IndexSnapshot where
  value : Int
  change : Int
  pChange : Int
  openV : Int
  high : Int
  low : Int
deriving DecidableEq

/-- Python dict assignment `d[k] = v` on an association list: overwrite in
place when the key is present, else append at the end. -/
def dictInsert (l : List (String × IndexSnapshot)) (k : String)
    (v : IndexSnapshot) : List (String × IndexSnapshot) :=
  if l.any (fun p => p.1 = k) then
    l.map (fun p => if p.1 = k then (k, v) else p)
  else
    l ++ [(k, v)]

/-- Loop body of fetch_nse_indices (src/app.py lines 100-110): filter by the
inline allow-list, then `indices[index_name] = {...}`. -/
def indexStep (indices : List (String × IndexSnapshot)) (item : IndexItemJson) :
    List (String × IndexSnapshot) :=
  let index_name := item.index.getD ""
  if index_name ∈ ["NIFTY 50", "NIFTY BANK", "NIFTY IT", "NIFTY MIDCAP 100"] then
    dictInsert indices index_name
      { value := item.last.getD 0
        change := item.variation.getD 0
        pChange := item.percentChange.getD 0
        openV := item.openV.getD 0
        high := item.high.getD 0
        low := item.low.getD 0 }
  else indices

/-- src/app.py lines 90-119: fetch_nse_indices. The returned Python dict is
modelled as an association list in insertion order. Any error collapses to
the empty mapping. -/
def fetch_nse_indices (resp : HttpResult AllIndicesJson) :
    List (String × IndexSnapshot) :=
  match resp with
  | .netErr => []
  | .ok status body =>
    if status = 200 then
      match body with
      | none => []                  -- response.json() raised, caught by except
      | some data => (data.data.getD []).foldl indexStep []
    else []

/-! ### JSON shapes read by fetch_top_gainers_losers -/

/-- `item['meta']` sub-dict of a movers item. -/
structure MoverMeta where
  companyName : Option String
deriving DecidableEq

/-- One item of the movers `NIFTY.data` list. -/
structure MoverItemJson where
  symbol : Option String
  meta : Option MoverMeta
  lastPrice : Option Int
  change : Option Int
  pChange : Option Int
deriving DecidableEq

/-- The `NIFTY` sub-dict of a movers body. -/
structure NiftyBlock where
  data : Option (List MoverItemJson)
deriving DecidableEq

/-- Body of the live-analysis-variations endpoint. -/
structure MoversJson where
  NIFTY : Option NiftyBlock
deriving DecidableEq

/-- The per-item record appended by both movers loops. -/
structure MoverQuote where
  symbol : String
  name : String
  price : Int
  change : Int
  pChange : Int
deriving DecidableEq

/-- The `result` dict of fetch_top_gainers_losers. -/
structure MoversPair where
  gainers : List MoverQuote
  losers : List MoverQuote
deriving DecidableEq

/-- The dict literal appended inside both movers loops (lines 140-146 and
151-157 of src/app.py, identical bodies). -/
def moverEntry (item : MoverItemJson) : MoverQuote :=
  { symbol := item.symbol.getD ""
    name := (item.meta.getD { companyName := none }).companyName.getD ""
    price := item.lastPrice.getD 0
    change := item.change.getD 0
    pChange := item.pChange.getD 0 }

/-- One side of the movers result when its response is 200 and parses:
`data.get('NIFTY', {}).get('data', [])[:10]` transformed item by item. -/
def moversSide (d : MoversJson) : List MoverQuote :=
  (((d.NIFTY.getD { data := none }).data.getD []).take 10).map moverEntry

/-- src/app.py lines 121-163: fetch_top_gainers_losers. Both GETs and both
`.json()` calls sit inside one try block, so a raise anywhere (modelled by
`netErr`, or by a 200 response whose body is `none`) falls through to the
except branch returning both sides empty; only a non-200 status leaves the
other side intact. The intermediate Option models "this processing step
raised". -/
def fetch_top_gainers_losers (gainersResp losersResp : HttpResult MoversJson) :
    MoversPair :=
  match gainersResp with
  | .netErr => { gainers := [], losers := [] }
  | .ok gStatus gBody =>
    match losersResp with
    | .netErr => { gainers := [], losers := [] }
    | .ok lStatus lBody =>
      let gainersStep : Option (List MoverQuote) :=
        if gStatus = 200 then
          match gBody with
          | none => none            -- gainers_response.json() raised
          | some d => some (moversSide d)
        else some []
      match gainersStep with
      | none => { gainers := [], losers := [] }
      | some gList =>
        let losersStep : Option (List MoverQuote) :=
          if lStatus = 200 then
            match lBody with
            | none => none          -- losers_response.json() raised
            | some d => some (moversSide d)
          else some []
        match losersStep with
        | none => { gainers := [], losers := [] }
        | some lList => { gainers := gList, losers := lList }

/-! ### Tracked symbols, cache state, upstream environment, handlers -/

/-- src/app.py lines 166-171: the 20 tracked symbols. -/
def TOP_STOCKS : List String :=
  ["RELIANCE", "TCS", "HDFCBANK", "INFY", "ICICIBANK",
   "HINDUNILVR", "ITC", "SBIN", "BHARTIARTL", "KOTAKBANK",
   "LT", "AXISBANK", "ASIANPAINT", "MARUTI", "BAJFINANCE",
   "TITAN", "SUNPHARMA", "ULTRACEMCO", "NESTLEIND", "WIPRO"]

/-- The `cache['data']` dict: each key that any code path may set is an
Option field; all-none models the empty dict {}. The iso-string key
'timestamp' of complete_data is timestampStr (distinct from the numeric
`cache['timestamp']`). -/
structure CacheData where
  stocks : Option (List StockQuote)
  indices : Option (List (String × IndexSnapshot))
  movers : Option MoversPair
  timestampStr : Option String
  market_status : Option String
deriving DecidableEq

/-- The empty dict {} assigned by `if not cache['data']: cache['data'] = {}`. -/
def CacheData.emptyDict : CacheData :=
  { stocks := none, indices := none, movers := none,
    timestampStr := none, market_status := none }

/-- Python truthiness of the `cache['data']` dict: non-empty, i.e. at least
one key present. -/
def CacheData.truthy (d : CacheData) : Bool :=
  d.stocks.isSome || d.indices.isSome || d.movers.isSome ||
    d.timestampStr.isSome || d.market_status.isSome

/-- The module-level `cache` dict: data (None until first write), numeric
timestamp, ttl. Times are modelled as Int seconds. -/
structure Cache where
  data : Option CacheData
  timestamp : Int
  ttl : Int
deriving DecidableEq

/-- src/app.py lines 38-42: the initial value of the module-level cache. -/
def cache0 : Cache := { data := none, timestamp := 0, ttl := 60 }

/-- Truthiness of `cache['data']`: None is falsy, a dict is truthy iff
non-empty. -/
def dataTruthy : Option CacheData → Bool
  | none => false
  | some d => d.truthy

/-- Truthiness of `cache['data'].get('indices')`: falsy when the key is
absent or its value is the empty dict. -/
def indicesFieldTruthy : Option CacheData → Bool
  | none => false
  | some d =>
    match d.indices with
    | none => false
    | some l => !l.isEmpty

/-- The environment a handler call runs against: the upstream responses this
call would receive, plus the current wall-clock readings. -/
structure Upstream where
  quoteResp : String → HttpResult QuoteJson
  indicesResp : HttpResult AllIndicesJson
  gainersResp : HttpResult MoversJson
  losersResp : HttpResult MoversJson
  nowIso : String
  nowHour : Nat

/-- Outward effects a handler performs: the warm-up GET of
init_nse_session, and the data fetches. A cache hit performs none. -/
inductive Effect where
  | warmUp : Effect
  | fetchQuoteCall (symbol : String) : Effect
  | fetchIndicesCall : Effect
  | fetchMoversCall : Effect
deriving DecidableEq

/-- The stocks loop of get_stocks / get_all_data: fetch each symbol in list
order, appending only non-None results. -/
def fetchStocksList (u : Upstream) (syms : List String) : List StockQuote :=
  syms.filterMap (fun s => fetch_nse_stock_data s u.nowIso (u.quoteResp s))

/-- Cache condition of get_stocks (src/app.py line 194):
`cache['data'] and (current_time - cache['timestamp']) < cache['ttl']`. -/
def stocksHit (now : Int) (c : Cache) : Bool :=
  dataTruthy c.data && decide (now - c.timestamp < c.ttl)

/-- Cache condition of get_indices (src/app.py line 232): additionally
requires `cache['data'].get('indices')` truthy. -/
def indicesHit (now : Int) (c : Cache) : Bool :=
  dataTruthy c.data && indicesFieldTruthy c.data &&
    decide (now - c.timestamp < c.ttl)

/-- Cache condition of get_all_data (src/app.py line 258): same shape as
get_stocks. -/
def allHit (now : Int) (c : Cache) : Bool :=
  dataTruthy c.data && decide (now - c.timestamp < c.ttl)

/-- src/app.py lines 189-214: the /api/stocks handler. The response is
`ok` (HTTP 200 with the JSON list) or `error ()`, an uncaught exception
escaping the handler — the hit path reads `cache['data']['stocks']` by
key, which raises KeyError when the key is absent. Returns (response, new
cache, effects). -/
def get_stocks (now : Int) (u : Upstream) (c : Cache) :
    Except Unit (List StockQuote) × Cache × List Effect :=
  if stocksHit now c then
    match (c.data.getD CacheData.emptyDict).stocks with
    | some s => (.ok s, c, [])
    | none => (.error (), c, [])    -- KeyError on cache['data']['stocks']
  else
    let stocks_data := fetchStocksList u TOP_STOCKS
    let base := if dataTruthy c.data then c.data.getD CacheData.emptyDict
                else CacheData.emptyDict
    (.ok stocks_data,
     { data := some { base with stocks := some stocks_data },
       timestamp := now, ttl := c.ttl },
     Effect.warmUp :: TOP_STOCKS.map Effect.fetchQuoteCall)

/-- Response of the /api/stock/<symbol> handler: 200 with a quote, or a
status + JSON error body. -/
inductive StockResponse where
  | ok (q : StockQuote) : StockResponse
  | err (status : Nat) (msg : String) : StockResponse
deriving DecidableEq

/-- src/app.py lines 216-225: the /api/stock/<symbol> handler. Never touches
the cache; always warm-up plus one fetch of the uppercased symbol. -/
def get_stock (symbol : String) (u : Upstream) (c : Cache) :
    StockResponse × Cache × List Effect :=
  match fetch_nse_stock_data symbol.toUpper u.nowIso
      (u.quoteResp symbol.toUpper) with
  | some d => (.ok d, c, [Effect.warmUp, Effect.fetchQuoteCall symbol.toUpper])
  | none => (.err 500 "Failed to fetch stock data", c,
             [Effect.warmUp, Effect.fetchQuoteCall symbol.toUpper])

/-- src/app.py lines 227-244: the /api/indices handler. -/
def get_indices (now : Int) (u : Upstream) (c : Cache) :
    List (String × IndexSnapshot) × Cache × List Effect :=
  if indicesHit now c then
    ((c.data.getD CacheData.emptyDict).indices.getD [], c, [])
  else
    let indices := fetch_nse_indices u.indicesResp
    let base := if dataTruthy c.data then c.data.getD CacheData.emptyDict
                else CacheData.emptyDict
    (indices,
     { data := some { base with indices := some indices },
       timestamp := now, ttl := c.ttl },
     [Effect.warmUp, Effect.fetchIndicesCall])

/-- src/app.py lines 246-251: the /api/movers handler — never cached. -/
def get_movers (u : Upstream) (c : Cache) :
    MoversPair × Cache × List Effect :=
  (fetch_top_gainers_losers u.gainersResp u.losersResp, c,
   [Effect.warmUp, Effect.fetchMoversCall])

/-- The complete_data dict assembled by get_all_data (src/app.py lines
275-281), recomputing every field from this call's upstream responses. -/
def complete_data (u : Upstream) : CacheData :=
  { indices := some (fetch_nse_indices u.indicesResp)
    stocks := some (fetchStocksList u (TOP_STOCKS.take 15))
    movers := some (fetch_top_gainers_losers u.gainersResp u.losersResp)
    timestampStr := some u.nowIso
    market_status := some (if 9 ≤ u.nowHour ∧ u.nowHour < 16 then "open"
                           else "closed") }

/-- src/app.py lines 253-287: the /api/all handler. A miss replaces the
entire cache entry with complete_data. -/
def get_all_data (now : Int) (u : Upstream) (c : Cache) :
    CacheData × Cache × List Effect :=
  if allHit now c then
    (c.data.getD CacheData.emptyDict, c, [])
  else
    let cd := complete_data u
    (cd, { data := some cd, timestamp := now, ttl := c.ttl },
     Effect.warmUp :: Effect.fetchIndicesCall :: Effect.fetchMoversCall ::
       (TOP_STOCKS.take 15).map Effect.fetchQuoteCall)

/-- src/app.py lines 289-294: the /api/clear-cache handler. -/
def clear_cache (c : Cache) : String × Cache :=
  ("Cache cleared successfully", { data := none, timestamp := 0, ttl := c.ttl })

/-! ### Concrete fixtures used by counterexamples and witnesses -/

/-- An upstream where every request raises (total upstream failure). -/
def uFail : Upstream :=
  { quoteResp := fun _ => .netErr, indicesResp := .netErr,
    gainersResp := .netErr, losersResp := .netErr,
    nowIso := "", nowHour := 0 }

/-- An upstream whose quote endpoint always answers 503 (no body parsed). -/
def u503 : Upstream :=
  { quoteResp := fun _ => .ok 503 none, indicesResp := .netErr,
    gainersResp := .netErr, losersResp := .netErr,
    nowIso := "", nowHour := 0 }

/-- A cache-data dict holding only an (empty) indices mapping — the state
left by a get_indices miss under total upstream failure. The stocks key is
absent, yet the dict is non-empty, hence truthy. -/
def d0 : CacheData :=
  { stocks := none, indices := some [], movers := none,
    timestampStr := none, market_status := none }

/-- A cache entry whose data holds only the indices key, captured at 0. -/
def c_idx : Cache := { data := some d0, timestamp := 0, ttl := 60 }

/-- A quote body with both optional sub-dicts absent. -/
def empty_quote_json : QuoteJson := { priceInfo := none, metadata := none }

/-- A quote body whose sub-dicts are present but hold no keys. -/
def hollow_quote_json : QuoteJson :=
  { priceInfo := some PriceInfo.empty, metadata := some Metadata.empty }

/-- The single mover item used by the fixtures below. -/
def abc_item : MoverItemJson :=
  { symbol := some "ABC", meta := some { companyName := some "ABC Ltd" },
    lastPrice := some 100, change := some 5, pChange := some 2 }

/-- A movers body with a single item, used to show one leg succeeding. -/
def one_loser_json : MoversJson :=
  { NIFTY := some { data := some [abc_item] } }

/-- An allIndices body containing one allow-listed and one non-allow-listed
index. -/
def two_index_payload : AllIndicesJson :=
  { data := some
      [{ index := some "NIFTY 50", last := some 25000, variation := some 120,
         percentChange := some 1, openV := some 24900, high := some 25100,
         low := some 24800 },
       { index := some "NIFTY AUTO", last := some 27000, variation := some 50,
         percentChange := some 0, openV := some 26950, high := some 27100,
         low := some 26900 }] }

/-- The four-index allow-list as the specification states it, to compare
with the inline list in fetch_nse_indices. -/
def allow_list : List String :=
  ["NIFTY 50", "NIFTY BANK", "NIFTY IT", "NIFTY MIDCAP 100"]

/-- The quote the spec expects from a 200 response missing every optional
field: numeric fields zero, lastUpdateTime empty, the name falling back to
the symbol, fetchedAt the current instant. -/
def defaultQuote (symbol nowIso : String) : StockQuote :=
  { symbol := symbol, name := symbol, price := 0, change := 0, pChange := 0,
    previousClose := 0, openPrice := 0, dayHigh := 0, dayLow := 0,
    volume := 0, value := 0, lastUpdateTime := "", timestamp := nowIso }

/-! ### Helper lemmas -/

/-- Keys after a dict overwrite-in-place are the old keys with some
occurrences replaced by the inserted key. -/
theorem keys_map_overwrite (l : List (String × IndexSnapshot)) (k : String)
    (v : IndexSnapshot) :
    ∀ k' ∈ (l.map (fun p => if p.1 = k then (k, v) else p)).map Prod.fst,
      k' = k ∨ k' ∈ l.map Prod.fst := by
  induction l with
  | nil => simp
  | cons p t ih =>
    intro k' hk'
    simp only [List.map_cons, List.mem_cons] at hk' ⊢
    rcases hk' with h | h
    · by_cases hpk : p.1 = k
      · simp [hpk] at h
        exact Or.inl h
      · simp [hpk] at h
        exact Or.inr (Or.inl h)
    · rcases ih k' h with h1 | h2
      · exact Or.inl h1
      · exact Or.inr (Or.inr h2)

/-- A key present after dictInsert is the inserted key or an old key. -/
theorem keys_dictInsert (l : List (String × IndexSnapshot)) (k k' : String)
    (v : IndexSnapshot) (h : k' ∈ (dictInsert l k v).map Prod.fst) :
    k' = k ∨ k' ∈ l.map Prod.fst := by
  unfold dictInsert at h
  split at h
  · exact keys_map_overwrite l k v k' h
  · rw [List.map_append, List.mem_append] at h
    rcases h with h1 | h2
    · exact Or.inr h1
    · simp at h2
      exact Or.inl h2

/-- A key present after one indexStep is allow-listed or was already there. -/
theorem keys_indexStep (acc : List (String × IndexSnapshot))
    (item : IndexItemJson) (k : String)
    (h : k ∈ (indexStep acc item).map Prod.fst) :
    k ∈ allow_list ∨ k ∈ acc.map Prod.fst := by
  simp only [indexStep] at h
  split at h
  · rename_i hmem
    rcases keys_dictInsert acc (item.index.getD "") k _ h with h1 | h2
    · subst h1
      exact Or.inl (by simpa [allow_list] using hmem)
    · exact Or.inr h2
  · exact Or.inr h

/-- Folding indexStep keeps every key inside the allow-list. -/
theorem keys_foldl_indexStep (l : List IndexItemJson) :
    ∀ acc, (∀ k ∈ acc.map Prod.fst, k ∈ allow_list) →
      ∀ k ∈ (l.foldl indexStep acc).map Prod.fst, k ∈ allow_list := by
  induction l with
  | nil => intro acc hacc k hk; exact hacc k hk
  | cons x t ih =>
    intro acc hacc k hk
    simp only [List.foldl_cons] at hk
    refine ih (indexStep acc x) ?_ k hk
    intro k' hk'
    rcases keys_indexStep acc x k' hk' with h | h
    · exact h
    · exact hacc k' h

/-- Each side built from a parsed 200 response has at most 10 entries. -/
theorem moversSide_length_le (d : MoversJson) : (moversSide d).length ≤ 10 := by
  simp only [moversSide, List.length_map, List.length_take]
  exact Nat.min_le_left _ _

/-! ### Claim theorems -/

/-- C1 (counterexample): with a fresh cache entry holding only the indices
key, the /api/stocks handler performs no warm-up and no upstream call and
leaves the cache untouched, although its own sub-payload (stocks) is
absent — refuting "if either condition fails, the handler performs a
fresh fetch". -/
theorem C1_counterexample :
    (get_stocks 10 uFail c_idx).2.2 = [] ∧
    (get_stocks 10 uFail c_idx).2.1 = c_idx ∧
    d0.stocks = none ∧
    dataTruthy c_idx.data = true ∧ (10 : Int) - c_idx.timestamp < c_idx.ttl :=
  ⟨rfl, rfl, rfl, rfl, by decide⟩

/-- C1 (amended): a cached category is served from the cache (no warm-up,
no upstream calls, cache left unchanged) iff the shared entry is non-empty
and its age is strictly under the TTL — with only the indices handler
additionally requiring its own sub-payload to be present and non-empty;
the stocks and all handlers never check their own sub-payload. -/
theorem C1_cache_gate_amended :
    (∀ now : Int, ∀ u : Upstream, ∀ c : Cache,
      ((get_stocks now u c).2.2 = [] ∧ (get_stocks now u c).2.1 = c) ↔
        (dataTruthy c.data = true ∧ now - c.timestamp < c.ttl)) ∧
    (∀ now : Int, ∀ u : Upstream, ∀ c : Cache,
      ((get_indices now u c).2.2 = [] ∧ (get_indices now u c).2.1 = c) ↔
        (dataTruthy c.data = true ∧ indicesFieldTruthy c.data = true ∧
         now - c.timestamp < c.ttl)) ∧
    (∀ now : Int, ∀ u : Upstream, ∀ c : Cache,
      ((get_all_data now u c).2.2 = [] ∧ (get_all_data now u c).2.1 = c) ↔
        (dataTruthy c.data = true ∧ now - c.timestamp < c.ttl)) := by
  refine ⟨?_, ?_, ?_⟩
  · intro now u c
    by_cases h : stocksHit now c = true
    · have hR := h
      simp only [stocksHit, Bool.and_eq_true, decide_eq_true_eq] at hR
      cases hs : (c.data.getD CacheData.emptyDict).stocks <;>
        simp [get_stocks, h, hs, hR]
    · have hR : ¬(dataTruthy c.data = true ∧ now - c.timestamp < c.ttl) := by
        intro hx
        exact h (by simp [stocksHit, hx.1, hx.2])
      simp [get_stocks, h, hR]
  · intro now u c
    by_cases h : indicesHit now c = true
    · have hR := h
      simp only [indicesHit, Bool.and_eq_true, decide_eq_true_eq] at hR
      simp [get_indices, h, hR.1.1, hR.1.2, hR.2]
    · have hR : ¬(dataTruthy c.data = true ∧ indicesFieldTruthy c.data = true ∧
          now - c.timestamp < c.ttl) := by
        intro hx
        exact h (by simp [indicesHit, hx.1, hx.2.1, hx.2.2])
      simp [get_indices, h, hR]
  · intro now u c
    by_cases h : allHit now c = true
    · have hR := h
      simp only [allHit, Bool.and_eq_true, decide_eq_true_eq] at hR
      simp [get_all_data, h, hR]
    · have hR : ¬(dataTruthy c.data = true ∧ now - c.timestamp < c.ttl) := by
        intro hx
        exact h (by simp [allHit, hx.1, hx.2])
      simp [get_all_data, h, hR]

/-- C2 (code bug, evaluated at the failing input): after /api/indices
populates the shared entry at time 0 under total upstream failure, a GET
to /api/stocks at time 10 takes the cache path (no effects) and the
lookup of the absent stocks key raises an uncaught KeyError instead of
producing a 200 list. -/
theorem C2_stocks_keyerror :
    (get_stocks 10 uFail (get_indices 0 uFail cache0).2.1).1 = Except.error () ∧
    (get_stocks 10 uFail (get_indices 0 uFail cache0).2.1).2.2 = [] :=
  ⟨rfl, rfl⟩

/-- C3 (counterexample): on a 200 response missing all optional fields the
name field of the returned quote is the symbol, not the empty string. -/
theorem C3_counterexample :
    (fetch_nse_stock_data "FOO" "2024-01-01T00:00:00"
        (.ok 200 (some empty_quote_json))).map StockQuote.name = some "FOO" ∧
    ("FOO" : String) ≠ "" :=
  ⟨rfl, by decide⟩

/-- C3 (amended): on a 200 response missing all optional fields (whether
the two sub-dicts are absent or present-but-empty), fetch_nse_stock_data
returns a quote, never an error, with every numeric field zero,
lastUpdateTime empty, and the name defaulting to the symbol itself. -/
theorem C3_empty_quote_amended :
    ∀ symbol nowIso : String,
      fetch_nse_stock_data symbol nowIso (.ok 200 (some empty_quote_json)) =
        some (defaultQuote symbol nowIso) ∧
      fetch_nse_stock_data symbol nowIso (.ok 200 (some hollow_quote_json)) =
        some (defaultQuote symbol nowIso) :=
  fun _ _ => ⟨rfl, rfl⟩

/-- C4 (counterexample): the gainers request raising while the losers leg
returns 200 with one parseable entry empties both sides — the succeeding
leg's entries do not appear. -/
theorem C4_counterexample :
    fetch_top_gainers_losers .netErr (.ok 200 (some one_loser_json)) =
      { gainers := [], losers := [] } ∧
    moversSide one_loser_json ≠ [] :=
  ⟨rfl, by decide⟩

/-- C4 (amended): only a non-200 status degrades one leg independently,
leaving the other leg's entries intact; a raised exception on either leg
(network error / timeout, modelled by netErr, or malformed JSON on a 200,
modelled by a none body) falls through to the shared except branch and
empties both sides. -/
theorem C4_leg_coupling_amended :
    (∀ gs : Nat, ∀ gb : Option MoversJson, ∀ ld : MoversJson, gs ≠ 200 →
       fetch_top_gainers_losers (.ok gs gb) (.ok 200 (some ld)) =
         { gainers := [], losers := moversSide ld }) ∧
    (∀ ls : Nat, ∀ lb : Option MoversJson, ∀ gd : MoversJson, ls ≠ 200 →
       fetch_top_gainers_losers (.ok 200 (some gd)) (.ok ls lb) =
         { gainers := moversSide gd, losers := [] }) ∧
    (∀ l, fetch_top_gainers_losers .netErr l = { gainers := [], losers := [] }) ∧
    (∀ g, fetch_top_gainers_losers g .netErr = { gainers := [], losers := [] }) ∧
    (∀ l, fetch_top_gainers_losers (.ok 200 none) l =
       { gainers := [], losers := [] }) ∧
    (∀ gd : MoversJson, fetch_top_gainers_losers (.ok 200 (some gd)) (.ok 200 none) =
       { gainers := [], losers := [] }) := by
  refine ⟨?_, ?_, ?_, ?_, ?_, ?_⟩
  · intro gs gb ld h
    simp [fetch_top_gainers_losers, h]
  · intro ls lb gd h
    cases lb <;> simp [fetch_top_gainers_losers, h]
  · intro l; rfl
  · intro g; cases g <;> rfl
  · intro l; cases l <;> rfl
  · intro gd; rfl

/-- C4 (witness): the first clause applied at a 503 gainers leg and the
concrete one-item losers payload. -/
theorem C4_leg_coupling_witness :
    fetch_top_gainers_losers (.ok 503 none) (.ok 200 (some one_loser_json)) =
      { gainers := [], losers := moversSide one_loser_json } :=
  C4_leg_coupling_amended.1 503 none one_loser_json (by decide)

/-- C5 (confirmed): when both movers legs return parseable 200 responses,
each side of the result is exactly the item-wise transform of the first
ten upstream entries in upstream order, and in every case each side holds
at most ten entries. -/
theorem C5_movers_truncation :
    (∀ gd ld : MoversJson,
       fetch_top_gainers_losers (.ok 200 (some gd)) (.ok 200 (some ld)) =
         { gainers :=
             (((gd.NIFTY.getD { data := none }).data.getD []).take 10).map moverEntry,
           losers :=
             (((ld.NIFTY.getD { data := none }).data.getD []).take 10).map moverEntry }) ∧
    (∀ g l, (fetch_top_gainers_losers g l).gainers.length ≤ 10 ∧
            (fetch_top_gainers_losers g l).losers.length ≤ 10) := by
  constructor
  · intro gd ld; rfl
  · intro g l
    cases g with
    | netErr => simp [fetch_top_gainers_losers]
    | ok gs gb =>
      cases l with
      | netErr => simp [fetch_top_gainers_losers]
      | ok ls lb =>
        by_cases hg : gs = 200
        · subst hg
          cases gb with
          | none => simp [fetch_top_gainers_losers]
          | some gd =>
            by_cases hl : ls = 200
            · subst hl
              cases lb with
              | none => simp [fetch_top_gainers_losers]
              | some ld =>
                simpa [fetch_top_gainers_losers] using
                  ⟨moversSide_length_le gd, moversSide_length_le ld⟩
            · simpa [fetch_top_gainers_losers, hl] using moversSide_length_le gd
        · by_cases hl : ls = 200
          · subst hl
            cases lb with
            | none => simp [fetch_top_gainers_losers, hg]
            | some ld =>
              simpa [fetch_top_gainers_losers, hg] using moversSide_length_le ld
          · simp [fetch_top_gainers_losers, hg, hl]

/-- C6 (confirmed): every key of the mapping returned by fetch_nse_indices
lies in the four-name allow-list; any error (network failure, non-200
status, malformed JSON) yields the empty mapping; and the concrete payload
holding NIFTY 50 and NIFTY AUTO maps to exactly the key NIFTY 50. -/
theorem C6_indices_allowlist :
    (∀ r : HttpResult AllIndicesJson,
       ∀ k ∈ (fetch_nse_indices r).map Prod.fst, k ∈ allow_list) ∧
    fetch_nse_indices .netErr = [] ∧
    (∀ s : Nat, ∀ b : Option AllIndicesJson, s ≠ 200 →
       fetch_nse_indices (.ok s b) = []) ∧
    fetch_nse_indices (.ok 200 none) = [] ∧
    (fetch_nse_indices (.ok 200 (some two_index_payload))).map Prod.fst =
      ["NIFTY 50"] := by
  refine ⟨?_, rfl, ?_, rfl, by decide⟩
  · intro r k hk
    cases r with
    | netErr => simp [fetch_nse_indices] at hk
    | ok s b =>
      by_cases hs : s = 200
      · subst hs
        cases b with
        | none => simp [fetch_nse_indices] at hk
        | some d =>
          simp only [fetch_nse_indices, if_pos rfl] at hk
          exact keys_foldl_indexStep (d.data.getD []) [] (by simp) k hk
      · simp [fetch_nse_indices, hs] at hk
  · intro s b hs
    simp [fetch_nse_indices, hs]

/-- C6 (witness): the allow-list clause at the concrete two-index payload
and the non-200 clause at status 503. -/
theorem C6_indices_allowlist_witness :
    ("NIFTY 50" ∈ allow_list) ∧ fetch_nse_indices (.ok 503 none) = [] :=
  ⟨C6_indices_allowlist.1 (.ok 200 (some two_index_payload)) "NIFTY 50"
     (by decide),
   C6_indices_allowlist.2.2.1 503 none (by decide)⟩

/-- C7 (confirmed): /api/stock/<symbol> leaves the cache unchanged, its
response and effects are independent of the cache state, it always
performs warm-up plus one fetch of the uppercased symbol, it answers 500
with the fixed error body exactly when the fetch fails, and in particular
a 503 upstream answer for FOO yields that 500 response. -/
theorem C7_single_stock_bypass :
    (∀ s : String, ∀ u : Upstream, ∀ c : Cache, (get_stock s u c).2.1 = c) ∧
    (∀ s : String, ∀ u : Upstream, ∀ c c' : Cache,
       (get_stock s u c).1 = (get_stock s u c').1 ∧
       (get_stock s u c).2.2 = (get_stock s u c').2.2) ∧
    (∀ s : String, ∀ u : Upstream, ∀ c : Cache,
       (get_stock s u c).2.2 = [Effect.warmUp, Effect.fetchQuoteCall s.toUpper]) ∧
    (∀ s : String, ∀ u : Upstream, ∀ c : Cache,
       (get_stock s u c).1 = StockResponse.err 500 "Failed to fetch stock data" ↔
         fetch_nse_stock_data s.toUpper u.nowIso (u.quoteResp s.toUpper) = none) ∧
    (get_stock "FOO" u503 cache0).1 =
      StockResponse.err 500 "Failed to fetch stock data" := by
  refine ⟨?_, ?_, ?_, ?_, rfl⟩
  · intro s u c
    cases hf : fetch_nse_stock_data s.toUpper u.nowIso (u.quoteResp s.toUpper) <;>
      simp [get_stock, hf]
  · intro s u c c'
    cases hf : fetch_nse_stock_data s.toUpper u.nowIso (u.quoteResp s.toUpper) <;>
      simp [get_stock, hf]
  · intro s u c
    cases hf : fetch_nse_stock_data s.toUpper u.nowIso (u.quoteResp s.toUpper) <;>
      simp [get_stock, hf]
  · intro s u c
    cases hf : fetch_nse_stock_data s.toUpper u.nowIso (u.quoteResp s.toUpper) <;>
      simp [get_stock, hf]

/-- C8 (confirmed): on a miss, get_stocks writes only the stocks key and
get_indices only the indices key into the existing entry, leaving every
other key as it was and setting the numeric timestamp to now, while a
get_all_data miss replaces the whole entry with the freshly computed
complete_data snapshot. -/
theorem C8_cache_write_frame :
    (∀ now : Int, ∀ u : Upstream, ∀ c : Cache, ∀ d : CacheData,
       c.data = some d → d.truthy = true → stocksHit now c = false →
       (get_stocks now u c).2.1 =
         { data := some { d with stocks := some (fetchStocksList u TOP_STOCKS) },
           timestamp := now, ttl := c.ttl }) ∧
    (∀ now : Int, ∀ u : Upstream, ∀ c : Cache, ∀ d : CacheData,
       c.data = some d → d.truthy = true → indicesHit now c = false →
       (get_indices now u c).2.1 =
         { data := some { d with indices := some (fetch_nse_indices u.indicesResp) },
           timestamp := now, ttl := c.ttl }) ∧
    (∀ now : Int, ∀ u : Upstream, ∀ c : Cache,
       allHit now c = false →
       (get_all_data now u c).2.1 =
         { data := some (complete_data u), timestamp := now, ttl := c.ttl }) := by
  refine ⟨?_, ?_, ?_⟩
  · intro now u c d h1 h2 h3
    simp [get_stocks, h3, dataTruthy, h1, h2]
  · intro now u c d h1 h2 h3
    simp [get_indices, h3, dataTruthy, h1, h2]
  · intro now u c h
    simp [get_all_data, h]

/-- C8 (witness): the three clauses applied at time 200 to the stale entry
c_idx (captured at 0, TTL 60) under total upstream failure. -/
theorem C8_cache_write_frame_witness :
    (get_stocks 200 uFail c_idx).2.1 =
      { data := some { d0 with stocks := some (fetchStocksList uFail TOP_STOCKS) },
        timestamp := 200, ttl := 60 } ∧
    (get_indices 200 uFail c_idx).2.1 =
      { data := some { d0 with indices := some (fetch_nse_indices uFail.indicesResp) },
        timestamp := 200, ttl := 60 } ∧
    (get_all_data 200 uFail c_idx).2.1 =
      { data := some (complete_data uFail), timestamp := 200, ttl := 60 } :=
  ⟨C8_cache_write_frame.1 200 uFail c_idx d0 rfl (by decide) (by decide),
   C8_cache_write_frame.2.1 200 uFail c_idx d0 rfl (by decide) (by decide),
   C8_cache_write_frame.2.2 200 uFail c_idx (by decide)⟩

/-- C9 (confirmed): clear_cache resets the entry to data absent and
timestamp zero, after which every cached-category hit condition is false
at any time and each handler performs its full fresh fetch sequence
(warm-up followed by the category's upstream calls). -/
theorem C9_clear_cache_forces_fetch :
    ∀ now : Int, ∀ u : Upstream, ∀ c : Cache,
      stocksHit now (clear_cache c).2 = false ∧
      indicesHit now (clear_cache c).2 = false ∧
      allHit now (clear_cache c).2 = false ∧
      (get_stocks now u (clear_cache c).2).2.2 =
        Effect.warmUp :: TOP_STOCKS.map Effect.fetchQuoteCall ∧
      (get_indices now u (clear_cache c).2).2.2 =
        [Effect.warmUp, Effect.fetchIndicesCall] ∧
      (get_all_data now u (clear_cache c).2).2.2 =
        Effect.warmUp :: Effect.fetchIndicesCall :: Effect.fetchMoversCall ::
          (TOP_STOCKS.take 15).map Effect.fetchQuoteCall ∧
      (clear_cache c).2.data = none ∧ (clear_cache c).2.timestamp = 0 := by
  intro now u c
  refine ⟨rfl, rfl, rfl, ?_, ?_, ?_, rfl, rfl⟩
  · simp [get_stocks, stocksHit, clear_cache, dataTruthy]
  · simp [get_indices, indicesHit, clear_cache, dataTruthy]
  · simp [get_all_data, allHit, clear_cache, dataTruthy]

/-- C10 (confirmed): because all categories share one numeric timestamp, a
stocks payload captured at time t is still served at time t'' more than
60 seconds later, provided an /api/indices miss at t' refreshed the shared
timestamp in between: the final /api/stocks call performs no upstream
calls and returns the stocks list fetched at t. -/
theorem C10_shared_timestamp_staleness :
    ∀ t t' t'' : Int, ∀ u u' u'' : Upstream,
      t + 60 < t' → t' ≤ t'' → t'' - t' < 60 →
      ((get_stocks t'' u''
          (get_indices t' u' (get_stocks t u cache0).2.1).2.1).1 =
        Except.ok (fetchStocksList u TOP_STOCKS)) ∧
      (get_stocks t'' u''
          (get_indices t' u' (get_stocks t u cache0).2.1).2.1).2.2 = [] ∧
      60 < t'' - t := by
  intro t t' t'' u u' u'' h1 h2 h3
  have hc1 : (get_stocks t u cache0).2.1 =
      { data := some { CacheData.emptyDict with
          stocks := some (fetchStocksList u TOP_STOCKS) },
        timestamp := t, ttl := 60 } := by
    simp [get_stocks, stocksHit, cache0, dataTruthy]
  have hc2 : (get_indices t' u' (get_stocks t u cache0).2.1).2.1 =
      { data := some { CacheData.emptyDict with
          stocks := some (fetchStocksList u TOP_STOCKS),
          indices := some (fetch_nse_indices u'.indicesResp) },
        timestamp := t', ttl := 60 } := by
    rw [hc1]
    simp [get_indices, indicesHit, indicesFieldTruthy, dataTruthy,
      CacheData.truthy, CacheData.emptyDict]
  rw [hc2]
  refine ⟨?_, ?_, by omega⟩
  · simp [get_stocks, stocksHit, dataTruthy, CacheData.truthy,
      CacheData.emptyDict, h3]
  · simp [get_stocks, stocksHit, dataTruthy, CacheData.truthy,
      CacheData.emptyDict, h3]

/-- C10 (witness): the staleness scenario at t = 0, t' = 100, t'' = 130
under total upstream failure. -/
theorem C10_shared_timestamp_staleness_witness :
    ((get_stocks 130 uFail
        (get_indices 100 uFail (get_stocks 0 uFail cache0).2.1).2.1).1 =
      Except.ok (fetchStocksList uFail TOP_STOCKS)) ∧
    (get_stocks 130 uFail
        (get_indices 100 uFail (get_stocks 0 uFail cache0).2.1).2.1).2.2 = [] ∧
    (60 : Int) < 130 - 0 :=
  C10_shared_timestamp_staleness 0 100 130 uFail uFail uFail
    (by decide) (by decide) (by decide)

end NSE
